
import Mathlib

/-!
Verification development for the Sign-To-Text detection orchestrator.

The definitions below are a shallow embedding of the TypeScript source:

* `types.ts`           → `SignDetectionResult`, `HistoryItem`, `AppState`,
                         `DetectionMode`, `SignLanguage`
* `geminiService.ts`   → `cleanBase64`, `cleanJson`, `framesToProcess`,
                         `detectSignLanguage`, `detectSignSentence`
* `App.tsx`            → `OrchState`, `handleWordDetectionStart`,
                         `handleWordDetectionFinish`, `wordDedupStep`,
                         `handleFrameCapture`, `toggleRecordingStart`,
                         `toggleRecordingStop`, `finishSentence`, `step`, `run`
* `ControlPanel.tsx`   → the guards on the `switchMode` / `toggleRec` events

The remote Gemini call is opaque to the program, so it is modelled as an
environment value (`AIOutcome`) handed to the wrappers, and JSON.parse is an
opaque parser `String → Option SignDetectionResult` (`none` = parse throws).

React state-update semantics: `setX` inside an event handler does not mutate
`x` immediately; all updates issued during one synchronous segment (up to the
next `await` suspension point) are batched and committed together, so the
observable value of a piece of state is its committed value at each suspension
point.  Each `Event` below is exactly one such synchronous segment.  `useRef`
cells (`processingRef`, `framesBufferRef`) mutate immediately, which the model
reflects because each segment is atomic.
-/
/-- `AppState` from `types.ts`. -/
inductive AppState where
  | IDLE
  | SCANNING
  | RECORDING
  | PROCESSING
  | ERROR
deriving DecidableEq

/-- `DetectionMode` from `types.ts`. -/
inductive DetectionMode where
  | WORD
  | SENTENCE
deriving DecidableEq

/-- `SignLanguage` from `types.ts`. -/
inductive SignLanguage where
  | ASL
  | ISL
deriving DecidableEq

/-- `SignDetectionResult` from `types.ts`.  `confidence` is a JSON number in
[0,1]; it is modelled as a rational since the program never computes with it
(it is only produced by the service and displayed). -/
structure SignDetectionResult where
  isSign : Bool
  translation : String
  confidence : ℚ
  description : Option String := none
deriving DecidableEq

/-- `HistoryItem` from `types.ts`. -/
structure HistoryItem where
  id : String
  text : String
  timestamp : Nat
  mode : DetectionMode
deriving DecidableEq

/-- `cleanBase64` from `geminiService.ts`:
`(data: string) => data.split(',')[1] || data`.
`split(',')[1]` is the second comma-separated chunk; it is `undefined` when
there is no comma, and `||` falls back to `data` when it is `undefined` or
the empty string (both falsy). -/
def cleanBase64 (data : String) : String :=
  match (data.splitOn ",").get? 1 with
  | some s => if s = "" then data else s
  | none => data

/-- `cleanJson` from `geminiService.ts`:
strips a leading ```` ```json ```` fence (with following whitespace) and a
trailing ```` ``` ```` fence (with preceding whitespace), mirroring
`text.replace(/^```json\s*‍/, "").replace(/\s*```$/, "")` on the
empty-guarded input. -/
def cleanJson (text : String) : String :=
  if text = "" then ""
  else
    let t1 :=
      if text.startsWith "```json" then
        ((text.drop 7).data.dropWhile Char.isWhitespace).asString
      else text
    if t1.endsWith "```" then
      ((t1.dropRight 3).data.reverse.dropWhile Char.isWhitespace).reverse.asString
    else t1

/-- Outcome of one `ai.models.generateContent` call, as seen by the wrapper:
the call either throws (`requestError`) or returns a response whose `.text`
field may be absent. -/
inductive AIOutcome where
  | requestError
  | response (text : Option String)
deriving DecidableEq

/-- The fixed fallback returned by the `catch` block of `detectSignLanguage`. -/
def wordErrorResult : SignDetectionResult :=
  { isSign := false, translation := "", confidence := 0, description := some "Detection Error" }

/-- The fixed fallback returned by the `catch` block of `detectSignSentence`. -/
def sentenceErrorResult : SignDetectionResult :=
  { isSign := false, translation := "", confidence := 0,
    description := some "Error processing sentence" }

/-- `detectSignLanguage` from `geminiService.ts`.  `env` is the remote model
(the dispatched image data and language determine the outcome) and `parse`
models `JSON.parse` (`none` = throws).  Source control flow: on a request
error, on `!text` (absent or empty response text) or on a parse error the
`catch` block returns the fixed `wordErrorResult`. -/
def detectSignLanguage (base64Image : String) (language : SignLanguage)
    (env : String → SignLanguage → AIOutcome)
    (parse : String → Option SignDetectionResult) : SignDetectionResult :=
  match env (cleanBase64 base64Image) language with
  | .requestError => wordErrorResult
  | .response none => wordErrorResult
  | .response (some text) =>
    if text = "" then wordErrorResult
    else
      match parse (cleanJson text) with
      | none => wordErrorResult
      | some r => r

/-- `framesToProcess` from `detectSignSentence` in `geminiService.ts`:
`base64Images.length > 15
  ? base64Images.filter((_, i) => i % Math.ceil(base64Images.length / 15) === 0)
  : base64Images`.
`(base64Images.length + 14) / 15` is `Math.ceil(base64Images.length / 15)`
in natural-number arithmetic. -/
def framesToProcess (base64Images : List String) : List String :=
  if base64Images.length > 15 then
    ((base64Images.enum).filter
      (fun p => p.1 % ((base64Images.length + 14) / 15) == 0)).map Prod.snd
  else base64Images

/-- `detectSignSentence` from `geminiService.ts`.  The request carries the
(possibly downsampled) frames `framesToProcess base64Images`, each cleaned by
`cleanBase64`; `env` consumes exactly that dispatched list.  The failure
handling mirrors `detectSignLanguage`, with fallback `sentenceErrorResult`. -/
def detectSignSentence (base64Images : List String) (language : SignLanguage)
    (env : List String → SignLanguage → AIOutcome)
    (parse : String → Option SignDetectionResult) : SignDetectionResult :=
  match env ((framesToProcess base64Images).map cleanBase64) language with
  | .requestError => sentenceErrorResult
  | .response none => sentenceErrorResult
  | .response (some text) =>
    if text = "" then sentenceErrorResult
    else
      match parse (cleanJson text) with
      | none => sentenceErrorResult
      | some r => r

/-- The orchestrator state owned by `App.tsx`.

`appState`, `detectionMode`, `frameCount`, `history`, `currentPrediction` are
the React state hooks; `framesBuffer` is `framesBufferRef.current`;
`processing` is `processingRef.current`.  `spoken` logs every `speak(text)`
invocation (the Audio Notifier trigger; muting is the notifier's own,
external configuration).  `wordInFlight` counts outstanding
`detectSignLanguage` calls, `wordCallCount` / `sentenceCallCount` count calls
ever issued to each wrapper — bookkeeping used to state the claims, written
only where the source issues or resolves a call. -/
structure OrchState where
  appState : AppState
  detectionMode : DetectionMode
  framesBuffer : List String
  frameCount : Nat
  processing : Bool
  sentenceInFlight : Bool
  wordInFlight : Nat
  wordCallCount : Nat
  sentenceCallCount : Nat
  history : List HistoryItem
  currentPrediction : Option SignDetectionResult
  spoken : List String
deriving DecidableEq

/-- The initial state of `App` (all hooks at their initial values). -/
def initState : OrchState :=
  { appState := .IDLE
    detectionMode := .WORD
    framesBuffer := []
    frameCount := 0
    processing := false
    sentenceInFlight := false
    wordInFlight := 0
    wordCallCount := 0
    sentenceCallCount := 0
    history := []
    currentPrediction := none
    spoken := [] }

/-- The `setHistory` updater inside `handleWordDetection`: given the previous
history it returns the new history together with whether `speak` was called.
Source: `const lastItem = prev[prev.length - 1];
if (!lastItem || lastItem.text.toLowerCase() !== result.translation.toLowerCase())
{ speak(...); return [...prev, {id, text, timestamp, mode: 'WORD'}]; }
return prev;`  (`Date.now()` is the event's `now`, used for both `id` and
`timestamp`). -/
def wordDedupStep (result : SignDetectionResult) (now : Nat)
    (prev : List HistoryItem) : List HistoryItem × Bool :=
  match prev.getLast? with
  | none =>
    (prev ++ [{ id := toString now, text := result.translation,
                timestamp := now, mode := .WORD }], true)
  | some lastItem =>
    if lastItem.text.toLower ≠ result.translation.toLower then
      (prev ++ [{ id := toString now, text := result.translation,
                  timestamp := now, mode := .WORD }], true)
    else (prev, false)

/-- Synchronous prefix of `handleWordDetection` (`App.tsx`), up to the `await`
on `detectSignLanguage`: `if (processingRef.current) return;` drops the frame
with no state change and no call; otherwise the guard is set, the state moves
to `PROCESSING`, and one word-mode inference call is issued. -/
def handleWordDetectionStart (s : OrchState) : OrchState :=
  if s.processing then s
  else
    { s with processing := true, appState := .PROCESSING,
             wordInFlight := s.wordInFlight + 1,
             wordCallCount := s.wordCallCount + 1 }

/-- Continuation of `handleWordDetection` once the awaited `detectSignLanguage`
call resolves with `result`.  `if (result.isSign && result.translation)`
(nonempty-string truthiness) selects the accept/dedup branch; otherwise only
the current prediction's description is updated
(`setCurrentPrediction(prev => prev ? {...prev, description: "No clear sign
detected"} : null)`).  The `finally` block clears the guard and returns the
state to `SCANNING`. -/
def handleWordDetectionFinish (result : SignDetectionResult) (now : Nat)
    (s : OrchState) : OrchState :=
  let s1 :=
    if result.isSign = true ∧ result.translation ≠ "" then
      let res := wordDedupStep result now s.history
      { s with currentPrediction := some result,
               history := res.1,
               spoken := if res.2 then s.spoken ++ [result.translation] else s.spoken }
    else
      { s with currentPrediction :=
          (s.currentPrediction.map
            (fun p => { p with description := some "No clear sign detected" })) }
  { s1 with processing := false, appState := .SCANNING,
            wordInFlight := s.wordInFlight - 1 }

/-- `handleFrameCapture` from `App.tsx`: a captured frame goes to
`handleWordDetection` in word mode, and is pushed onto the buffer (with the
frame counter incremented) in sentence mode while `RECORDING`; otherwise it
is ignored. -/
def handleFrameCapture (img : String) (s : OrchState) : OrchState :=
  if s.detectionMode = .WORD then handleWordDetectionStart s
  else if s.detectionMode = .SENTENCE ∧ s.appState = .RECORDING then
    { s with framesBuffer := s.framesBuffer ++ [img],
             frameCount := s.frameCount + 1 }
  else s

/-- The `else` (start) branch of `toggleRecording`: clear the buffer, reset
the counter, enter `RECORDING`. -/
def toggleRecordingStart (s : OrchState) : OrchState :=
  { s with framesBuffer := [], frameCount := 0, appState := .RECORDING }

/-- The stop branch of `toggleRecording`, up to the `await` on
`detectSignSentence`.  With a non-empty buffer the committed state at the
suspension point is `PROCESSING` with one sentence call outstanding (the
buffer is read but not yet cleared).  With an empty buffer there is no
`await`: `setAppState(PROCESSING)` and the later `setFrameCount(0)` /
`setAppState(IDLE)` all belong to the same synchronous segment, so the single
committed update is the final one — buffer empty, counter `0`, state `IDLE` —
and no inference call is issued. -/
def toggleRecordingStop (s : OrchState) : OrchState :=
  if s.framesBuffer.length > 0 then
    { s with appState := .PROCESSING, sentenceInFlight := true,
             sentenceCallCount := s.sentenceCallCount + 1 }
  else
    { s with framesBuffer := [], frameCount := 0, appState := .IDLE }

/-- Continuation of the stop branch of `toggleRecording` once the awaited
`detectSignSentence` call resolves with `result`: on `result.isSign` the
prediction is set, `speak(result.translation)` fires and a `SENTENCE` entry
is appended unconditionally; otherwise the prediction becomes the
"Could not understand sentence" sentinel.  In both cases the buffer is then
cleared, the counter reset and the state set to `IDLE`. -/
def finishSentence (result : SignDetectionResult) (now : Nat)
    (s : OrchState) : OrchState :=
  let s1 :=
    if result.isSign = true then
      { s with currentPrediction := some result,
               spoken := s.spoken ++ [result.translation],
               history := s.history ++
                 [{ id := toString now, text := result.translation,
                    timestamp := now, mode := .SENTENCE }] }
    else
      { s with currentPrediction :=
          (some { isSign := false, translation := "Could not understand sentence",
                  confidence := 0 }) }
  { s1 with framesBuffer := [], frameCount := 0, appState := .IDLE,
            sentenceInFlight := false }

/-- Events of the orchestrator.  `tick` is a camera frame produced by one of
the two capture intervals; `wordDone` / `sentenceDone` are the resolutions of
outstanding inference calls, carrying the (environment-chosen) result and the
`Date.now()` timestamp observed by the continuation; `toggleRec` and
`switchMode` are the user controls in `ControlPanel.tsx`. -/
inductive Event where
  | tick (img : String)
  | wordDone (result : SignDetectionResult) (now : Nat)
  | sentenceDone (result : SignDetectionResult) (now : Nat)
  | toggleRec
  | switchMode (m : DetectionMode)

/-- One synchronous segment of the running app.

* `tick` fires only while its interval exists: the word-scan interval is
  mounted when `isAutoMode` holds (`detectionMode === 'WORD' && appState !==
  PROCESSING`, `App.tsx`; the `isCameraActive` conjunct is omitted — leaving
  it out only admits more traces), and the sentence-capture interval when
  `appState === RECORDING && detectionMode === 'SENTENCE'`.
* `wordDone` / `sentenceDone` can only resolve an outstanding call; with none
  outstanding the event is vacuous (it cannot occur).
* `toggleRec` is reachable only through the record button, rendered only in
  sentence mode and disabled while `PROCESSING` (`ControlPanel.tsx`).
* `switchMode` is guarded by `appState !== RECORDING` (both the `onClick`
  guard and `disabled` on the mode buttons in `ControlPanel.tsx`); it only
  calls `setDetectionMode`. -/
def step (e : Event) (s : OrchState) : OrchState :=
  match e with
  | .tick img =>
    if (s.detectionMode = .WORD ∧ s.appState ≠ .PROCESSING)
        ∨ (s.detectionMode = .SENTENCE ∧ s.appState = .RECORDING) then
      handleFrameCapture img s
    else s
  | .wordDone result now =>
    if s.processing then handleWordDetectionFinish result now s else s
  | .sentenceDone result now =>
    if s.sentenceInFlight then finishSentence result now s else s
  | .toggleRec =>
    if s.detectionMode = .SENTENCE then
      if s.appState = .RECORDING then toggleRecordingStop s
      else if s.appState = .PROCESSING then s
      else toggleRecordingStart s
    else s
  | .switchMode m =>
    if s.appState = .RECORDING then s else { s with detectionMode := m }

/-- The state reached from the initial state after a list of events. -/
def run (es : List Event) : OrchState :=
  es.foldl (fun s e => step e s) initState

/-- Reachability invariant of the orchestrator:
1. while a word call is outstanding the committed state is `PROCESSING` and
   the buffer is empty;
2. while a sentence call is outstanding the committed state is `PROCESSING`
   and no word call is outstanding;
3. `RECORDING` is only ever entered from the sentence-mode record button and
   the mode is locked while recording, so `RECORDING` implies sentence mode;
4. in `SCANNING` and `IDLE` the buffer is empty and the guard is clear;
5. the in-flight word-call count is exactly the guard;
6. the frame counter mirrors the buffer length;
7. nothing in `App.tsx` ever sets `AppState.ERROR`, so it is never reached. -/
def OrchInv (s : OrchState) : Prop :=
  (s.processing = true → s.appState = .PROCESSING ∧ s.framesBuffer = []) ∧
  (s.sentenceInFlight = true → s.appState = .PROCESSING ∧ s.processing = false) ∧
  (s.appState = .RECORDING → s.detectionMode = .SENTENCE) ∧
  ((s.appState = .SCANNING ∨ s.appState = .IDLE) →
    s.framesBuffer = [] ∧ s.processing = false) ∧
  s.wordInFlight = (if s.processing then 1 else 0) ∧
  s.frameCount = s.framesBuffer.length ∧
  s.appState ≠ .ERROR

/-- A 37-frame buffer, as in the spec's worked example. -/
def sampleFrames : List String := List.replicate 37 "f"

/-- A call outcome on which the wrapper's `try` block cannot produce a parsed
result: the request threw, the response text was absent or empty, or
`JSON.parse` threw. -/
def failedOutcome (parse : String → Option SignDetectionResult) : AIOutcome → Prop
  | .requestError => True
  | .response none => True
  | .response (some t) => t = "" ∨ parse (cleanJson t) = none

/-- A state with a word-mode call outstanding. -/
def wordBusyState : OrchState :=
  { initState with appState := .PROCESSING, processing := true,
                   wordInFlight := 1, wordCallCount := 1 }

/-- A recording session with one buffered frame. -/
def recordingState : OrchState :=
  { initState with appState := .RECORDING, detectionMode := .SENTENCE,
                   framesBuffer := ["frame"], frameCount := 1 }

/-- A reachable trace refuting claim C3: switch to sentence mode, record one
frame, stop, and let the service resolve with `isSign` true but an empty
translation.  `toggleRecording` appends a history entry after checking only
`result.isSign`, with no check on `result.translation`. -/
def emptyTranslationTrace : List Event :=
  [.switchMode .SENTENCE, .toggleRec, .tick "frame0", .toggleRec,
   .sentenceDone { isSign := true, translation := "", confidence := 0 } 5]

/-- A state with a sentence-mode call outstanding over one buffered frame. -/
def sentenceBusyState : OrchState :=
  { initState with appState := .PROCESSING, detectionMode := .SENTENCE,
                   sentenceInFlight := true, framesBuffer := ["frame"],
                   frameCount := 1, sentenceCallCount := 1 }

/-- The entry the word path would append for `result` at time `now`. -/
def wordEntry (result : SignDetectionResult) (now : Nat) : HistoryItem :=
  { id := toString now, text := result.translation, timestamp := now, mode := .WORD }

/-- A word in-flight state whose last history entry reads "hello". -/
def dupWordState : OrchState :=
  { initState with appState := .PROCESSING, processing := true,
                   wordInFlight := 1, wordCallCount := 1,
                   history := [{ id := "1", text := "hello", timestamp := 1,
                                 mode := .WORD }] }

/-- A recording session that has captured no frames yet. -/
def stopReadyState : OrchState :=
  { initState with appState := .RECORDING, detectionMode := .SENTENCE }

/-- A sentence call outstanding while the last history entry already reads
"hello" — the exact situation word-mode dedup would suppress. -/
def dupSentenceState : OrchState :=
  { initState with appState := .PROCESSING, detectionMode := .SENTENCE,
                   sentenceInFlight := true, sentenceCallCount := 1,
                   history := [{ id := "1", text := "hello", timestamp := 1,
                                 mode := .SENTENCE }] }

/-! Projection lemmas for the two call continuations: the branch on the
result only affects `history`, `spoken` and `currentPrediction`, so every
other field is the same in both branches. -/
@[simp]
lemma handleWordDetectionFinish_appState (result : SignDetectionResult) (now : Nat)
    (s : OrchState) : (handleWordDetectionFinish result now s).appState = .SCANNING := by
  unfold handleWordDetectionFinish
  split <;> rfl

@[simp]
lemma handleWordDetectionFinish_processing (result : SignDetectionResult) (now : Nat)
    (s : OrchState) : (handleWordDetectionFinish result now s).processing = false := by
  unfold handleWordDetectionFinish
  split <;> rfl

@[simp]
lemma handleWordDetectionFinish_wordInFlight (result : SignDetectionResult) (now : Nat)
    (s : OrchState) :
    (handleWordDetectionFinish result now s).wordInFlight = s.wordInFlight - 1 := by
  unfold handleWordDetectionFinish
  split <;> rfl

@[simp]
lemma handleWordDetectionFinish_framesBuffer (result : SignDetectionResult) (now : Nat)
    (s : OrchState) :
    (handleWordDetectionFinish result now s).framesBuffer = s.framesBuffer := by
  unfold handleWordDetectionFinish
  split <;> rfl

@[simp]
lemma handleWordDetectionFinish_frameCount (result : SignDetectionResult) (now : Nat)
    (s : OrchState) :
    (handleWordDetectionFinish result now s).frameCount = s.frameCount := by
  unfold handleWordDetectionFinish
  split <;> rfl

@[simp]
lemma handleWordDetectionFinish_sentenceInFlight (result : SignDetectionResult) (now : Nat)
    (s : OrchState) :
    (handleWordDetectionFinish result now s).sentenceInFlight = s.sentenceInFlight := by
  unfold handleWordDetectionFinish
  split <;> rfl

@[simp]
lemma handleWordDetectionFinish_detectionMode (result : SignDetectionResult) (now : Nat)
    (s : OrchState) :
    (handleWordDetectionFinish result now s).detectionMode = s.detectionMode := by
  unfold handleWordDetectionFinish
  split <;> rfl

@[simp]
lemma handleWordDetectionFinish_sentenceCallCount (result : SignDetectionResult) (now : Nat)
    (s : OrchState) :
    (handleWordDetectionFinish result now s).sentenceCallCount = s.sentenceCallCount := by
  unfold handleWordDetectionFinish
  split <;> rfl

@[simp]
lemma handleWordDetectionFinish_wordCallCount (result : SignDetectionResult) (now : Nat)
    (s : OrchState) :
    (handleWordDetectionFinish result now s).wordCallCount = s.wordCallCount := by
  unfold handleWordDetectionFinish
  split <;> rfl

@[simp]
lemma finishSentence_appState (result : SignDetectionResult) (now : Nat)
    (s : OrchState) : (finishSentence result now s).appState = .IDLE := by
  unfold finishSentence
  split <;> rfl

@[simp]
lemma finishSentence_framesBuffer (result : SignDetectionResult) (now : Nat)
    (s : OrchState) : (finishSentence result now s).framesBuffer = [] := by
  unfold finishSentence
  split <;> rfl

@[simp]
lemma finishSentence_frameCount (result : SignDetectionResult) (now : Nat)
    (s : OrchState) : (finishSentence result now s).frameCount = 0 := by
  unfold finishSentence
  split <;> rfl

@[simp]
lemma finishSentence_sentenceInFlight (result : SignDetectionResult) (now : Nat)
    (s : OrchState) : (finishSentence result now s).sentenceInFlight = false := by
  unfold finishSentence
  split <;> rfl

@[simp]
lemma finishSentence_processing (result : SignDetectionResult) (now : Nat)
    (s : OrchState) : (finishSentence result now s).processing = s.processing := by
  unfold finishSentence
  split <;> rfl

@[simp]
lemma finishSentence_detectionMode (result : SignDetectionResult) (now : Nat)
    (s : OrchState) : (finishSentence result now s).detectionMode = s.detectionMode := by
  unfold finishSentence
  split <;> rfl

@[simp]
lemma finishSentence_wordInFlight (result : SignDetectionResult) (now : Nat)
    (s : OrchState) : (finishSentence result now s).wordInFlight = s.wordInFlight := by
  unfold finishSentence
  split <;> rfl

@[simp]
lemma finishSentence_wordCallCount (result : SignDetectionResult) (now : Nat)
    (s : OrchState) : (finishSentence result now s).wordCallCount = s.wordCallCount := by
  unfold finishSentence
  split <;> rfl

@[simp]
lemma finishSentence_sentenceCallCount (result : SignDetectionResult) (now : Nat)
    (s : OrchState) : (finishSentence result now s).sentenceCallCount = s.sentenceCallCount := by
  unfold finishSentence
  split <;> rfl

lemma inv_initState : OrchInv initState := by
  refine ⟨?_, ?_, ?_, ?_, ?_, ?_, ?_⟩ <;> simp [initState]

lemma inv_step (e : Event) (s : OrchState) (h : OrchInv s) : OrchInv (step e s) := by
  obtain ⟨h1, h2, h3, h4, h5, h6, h7⟩ := h
  cases e with
  | tick img =>
    simp only [step]
    split
    · rename_i hact
      simp only [handleFrameCapture, handleWordDetectionStart]
      split_ifs with hw hp hsr
      · exact ⟨h1, h2, h3, h4, h5, h6, h7⟩
      · have hbuf : s.framesBuffer = [] := by
          rcases hact with ⟨_, hne⟩ | ⟨hsent, _⟩
          · rcases hA : s.appState with _ | _ | _ | _ | _
            · exact (h4 (Or.inr hA)).1
            · exact (h4 (Or.inl hA)).1
            · exact absurd (h3 hA) (by simp [hw])
            · exact absurd hA hne
            · exact absurd hA h7
          · exact absurd hw (by simp [hsent])
        refine ⟨?_, ?_, ?_, ?_, ?_, ?_, ?_⟩
        · intro _
          exact ⟨rfl, hbuf⟩
        · intro hsf
          refine absurd (h2 hsf).1 ?_
          rcases hact with ⟨_, hne⟩ | ⟨hsent, _⟩
          · exact hne
          · exact absurd hw (by simp [hsent])
        · intro hrec
          exact absurd hrec (by simp)
        · intro hor
          rcases hor with hx | hx <;> exact absurd hx (by simp)
        · simp [h5, hp]
        · exact h6
        · simp
      · have hps : s.appState = .RECORDING := hsr.2
        refine ⟨?_, ?_, ?_, ?_, ?_, ?_, ?_⟩
        · intro hpr
          have hx := (h1 hpr).1
          rw [hps] at hx
          exact absurd hx (by simp)
        · intro hsf
          have hx := (h2 hsf).1
          rw [hps] at hx
          exact absurd hx (by simp)
        · intro _
          exact hsr.1
        · intro hor
          have hor' : s.appState = .SCANNING ∨ s.appState = .IDLE := hor
          rcases hor' with hx | hx <;> (rw [hx] at hps; exact absurd hps (by simp))
        · exact h5
        · simp [h6]
        · intro hx
          have hx' : s.appState = .ERROR := hx
          rw [hx'] at hps
          exact absurd hps (by simp)
      · exact ⟨h1, h2, h3, h4, h5, h6, h7⟩
    · exact ⟨h1, h2, h3, h4, h5, h6, h7⟩
  | wordDone result now =>
    simp only [step]
    split
    · rename_i hp
      refine ⟨?_, ?_, ?_, ?_, ?_, ?_, ?_⟩
      · intro hx
        simp at hx
      · intro hsf
        rw [handleWordDetectionFinish_sentenceInFlight] at hsf
        exact absurd (h2 hsf).2 (by simp [hp])
      · intro hrec
        rw [handleWordDetectionFinish_appState] at hrec
        exact absurd hrec (by simp)
      · intro _
        refine ⟨?_, ?_⟩
        · rw [handleWordDetectionFinish_framesBuffer]
          exact (h1 hp).2
        · exact handleWordDetectionFinish_processing result now s
      · rw [handleWordDetectionFinish_wordInFlight, handleWordDetectionFinish_processing]
        simp [h5, hp]
      · rw [handleWordDetectionFinish_frameCount, handleWordDetectionFinish_framesBuffer]
        exact h6
      · rw [handleWordDetectionFinish_appState]
        simp
    · exact ⟨h1, h2, h3, h4, h5, h6, h7⟩
  | sentenceDone result now =>
    simp only [step]
    split
    · rename_i hsf
      have hpr : s.processing = false := (h2 hsf).2
      refine ⟨?_, ?_, ?_, ?_, ?_, ?_, ?_⟩
      · intro hx
        rw [finishSentence_processing] at hx
        exact absurd hx (by simp [hpr])
      · intro hx
        simp at hx
      · intro hrec
        rw [finishSentence_appState] at hrec
        exact absurd hrec (by simp)
      · intro _
        exact ⟨finishSentence_framesBuffer result now s, by simp [hpr]⟩
      · rw [finishSentence_wordInFlight, finishSentence_processing]
        exact h5
      · simp
      · rw [finishSentence_appState]
        simp
    · exact ⟨h1, h2, h3, h4, h5, h6, h7⟩
  | toggleRec =>
    simp only [step]
    split_ifs with hm hr hp
    · simp only [toggleRecordingStop]
      split_ifs with hlen
      · have hpr : s.processing = false := by
          by_contra hx
          simp only [Bool.not_eq_false] at hx
          exact absurd (h1 hx).1 (by simp [hr])
        refine ⟨?_, ?_, ?_, ?_, ?_, ?_, ?_⟩
        · intro hx
          exact absurd hx (by simp [hpr])
        · intro _
          exact ⟨rfl, by simp [hpr]⟩
        · intro hx
          simp at hx
        · intro hor
          rcases hor with hx | hx <;> simp at hx
        · simp [h5]
        · simp [h6]
        · simp
      · have hpr : s.processing = false := by
          by_contra hx
          simp only [Bool.not_eq_false] at hx
          exact absurd (h1 hx).1 (by simp [hr])
        refine ⟨?_, ?_, ?_, ?_, ?_, ?_, ?_⟩
        · intro hx
          exact absurd hx (by simp [hpr])
        · intro hsf
          exact absurd (h2 hsf).1 (by simp [hr])
        · intro hx
          simp at hx
        · intro _
          exact ⟨rfl, by simp [hpr]⟩
        · simp [h5]
        · simp
        · simp
    · exact ⟨h1, h2, h3, h4, h5, h6, h7⟩
    · simp only [toggleRecordingStart]
      have hpr : s.processing = false := by
        by_contra hx
        simp only [Bool.not_eq_false] at hx
        exact absurd (h1 hx).1 hp
      have hsf : s.sentenceInFlight = false := by
        by_contra hx
        simp only [Bool.not_eq_false] at hx
        exact absurd (h2 hx).1 hp
      refine ⟨?_, ?_, ?_, ?_, ?_, ?_, ?_⟩
      · intro hx
        exact absurd hx (by simp [hpr])
      · intro hx
        exact absurd hx (by simp [hsf])
      · intro _
        exact hm
      · intro hor
        rcases hor with hx | hx <;> simp at hx
      · simp [h5]
      · simp
      · simp
    · exact ⟨h1, h2, h3, h4, h5, h6, h7⟩
  | switchMode m =>
    simp only [step]
    split
    · exact ⟨h1, h2, h3, h4, h5, h6, h7⟩
    · rename_i hnr
      exact ⟨h1, h2, fun hx => absurd hx hnr, h4, h5, h6, h7⟩

lemma inv_foldl (es : List Event) (s : OrchState) (h : OrchInv s) :
    OrchInv (es.foldl (fun s e => step e s) s) := by
  induction es generalizing s with
  | nil => exact h
  | cons e es ih => exact ih (step e s) (inv_step e s h)

/-- Every state reachable from the initial state satisfies the invariant. -/
lemma inv_run (es : List Event) : OrchInv (run es) :=
  inv_foldl es initState inv_initState

/-! Downsampling lemmas for `framesToProcess`. -/
lemma range_filter_mod_le (n s k : Nat) (hs : 0 < s) (hnk : n ≤ k * s) :
    ((List.range n).filter (fun i => i % s == 0)).length ≤ k := by
  set kept := (List.range n).filter (fun i => i % s == 0) with hkept
  have hnodup : kept.Nodup := (List.nodup_range n).filter _
  have hmem : ∀ i ∈ kept, i % s = 0 ∧ i < n := by
    intro i hi
    rw [hkept, List.mem_filter, List.mem_range] at hi
    exact ⟨by simpa using hi.2, hi.1⟩
  have hmap : (kept.map (fun i => i / s)).Nodup := by
    refine hnodup.map_on ?_
    intro i hi j hj hij
    have hi' : i / s * s = i := Nat.div_mul_cancel (Nat.dvd_of_mod_eq_zero (hmem i hi).1)
    have hj' : j / s * s = j := Nat.div_mul_cancel (Nat.dvd_of_mod_eq_zero (hmem j hj).1)
    rw [← hi', ← hj', hij]
  have hsub : (kept.map (fun i => i / s)).toFinset ⊆ Finset.range k := by
    intro x hx
    rw [List.mem_toFinset, List.mem_map] at hx
    obtain ⟨i, hi, rfl⟩ := hx
    rw [Finset.mem_range]
    exact (Nat.div_lt_iff_lt_mul hs).2 (lt_of_lt_of_le (hmem i hi).2 hnk)
  calc kept.length = (kept.map (fun i => i / s)).length := (List.length_map _ _).symm
    _ = (kept.map (fun i => i / s)).toFinset.card := (List.toFinset_card_of_nodup hmap).symm
    _ ≤ (Finset.range k).card := Finset.card_le_card hsub
    _ = k := Finset.card_range k

lemma enum_filter_mod_length (l : List String) (s : Nat) :
    (l.enum.filter (fun p => p.1 % s == 0)).length =
    ((List.range l.length).filter (fun i => i % s == 0)).length := by
  have h := List.filter_map (Prod.fst (α := Nat) (β := String)) l.enum
              (p := fun i => i % s == 0)
  rw [List.enum_map_fst] at h
  have h2 : (l.enum.filter (fun p => p.1 % s == 0)).length
      = ((l.enum.filter ((fun i => i % s == 0) ∘ Prod.fst)).map Prod.fst).length := by
    rw [List.length_map]
    rfl
  rw [h2, ← h]

lemma framesToProcess_length_le (l : List String) (h : 15 < l.length) :
    (framesToProcess l).length ≤ 15 := by
  unfold framesToProcess
  rw [if_pos h, List.length_map]
  have hs : 0 < (l.length + 14) / 15 := by omega
  rw [enum_filter_mod_length l ((l.length + 14) / 15)]
  exact range_filter_mod_le l.length ((l.length + 14) / 15) 15 hs (by omega)

lemma framesToProcess_sublist (l : List String) : List.Sublist (framesToProcess l) l := by
  unfold framesToProcess
  split
  · have h2 := (List.filter_sublist
      (p := fun p => p.1 % ((l.length + 14) / 15) == 0) l.enum).map Prod.snd
    rw [List.enum_map_snd] at h2
    exact h2
  · exact List.Sublist.refl l

lemma framesToProcess_head (l : List String) (h : 15 < l.length) :
    (framesToProcess l).head? = l.head? := by
  unfold framesToProcess
  rw [if_pos h]
  cases l with
  | nil => simp at h
  | cons a t =>
    have he : (a :: t).enum = (0, a) :: List.enumFrom 1 t := rfl
    rw [he, List.filter_cons]
    simp [Nat.zero_mod]

/-! Result-dependent projections of the two call continuations. -/
lemma handleWordDetectionFinish_history (result : SignDetectionResult) (now : Nat)
    (s : OrchState) :
    (handleWordDetectionFinish result now s).history =
      if result.isSign = true ∧ result.translation ≠ "" then
        (wordDedupStep result now s.history).1
      else s.history := by
  simp only [handleWordDetectionFinish]
  by_cases hc : result.isSign = true ∧ result.translation ≠ ""
  · rw [if_pos hc, if_pos hc]
  · rw [if_neg hc, if_neg hc]

lemma handleWordDetectionFinish_spoken (result : SignDetectionResult) (now : Nat)
    (s : OrchState) :
    (handleWordDetectionFinish result now s).spoken =
      if result.isSign = true ∧ result.translation ≠ "" then
        (if (wordDedupStep result now s.history).2 then
          s.spoken ++ [result.translation] else s.spoken)
      else s.spoken := by
  simp only [handleWordDetectionFinish]
  by_cases hc : result.isSign = true ∧ result.translation ≠ ""
  · rw [if_pos hc, if_pos hc]
  · rw [if_neg hc, if_neg hc]

lemma handleWordDetectionFinish_currentPrediction (result : SignDetectionResult) (now : Nat)
    (s : OrchState) :
    (handleWordDetectionFinish result now s).currentPrediction =
      if result.isSign = true ∧ result.translation ≠ "" then some result
      else
        (s.currentPrediction.map
          (fun p => { p with description := some "No clear sign detected" })) := by
  simp only [handleWordDetectionFinish]
  by_cases hc : result.isSign = true ∧ result.translation ≠ ""
  · rw [if_pos hc, if_pos hc]
  · rw [if_neg hc, if_neg hc]

lemma finishSentence_history (result : SignDetectionResult) (now : Nat)
    (s : OrchState) :
    (finishSentence result now s).history =
      if result.isSign = true then
        s.history ++ [{ id := toString now, text := result.translation,
                        timestamp := now, mode := .SENTENCE }]
      else s.history := by
  simp only [finishSentence]
  by_cases hc : result.isSign = true
  · rw [if_pos hc, if_pos hc]
  · rw [if_neg hc, if_neg hc]

lemma finishSentence_spoken (result : SignDetectionResult) (now : Nat)
    (s : OrchState) :
    (finishSentence result now s).spoken =
      if result.isSign = true then s.spoken ++ [result.translation] else s.spoken := by
  simp only [finishSentence]
  by_cases hc : result.isSign = true
  · rw [if_pos hc, if_pos hc]
  · rw [if_neg hc, if_neg hc]

lemma finishSentence_currentPrediction (result : SignDetectionResult) (now : Nat)
    (s : OrchState) :
    (finishSentence result now s).currentPrediction =
      if result.isSign = true then some result
      else
        (some { isSign := false, translation := "Could not understand sentence",
                confidence := 0 }) := by
  simp only [finishSentence]
  by_cases hc : result.isSign = true
  · rw [if_pos hc, if_pos hc]
  · rw [if_neg hc, if_neg hc]

@[simp]
lemma handleWordDetectionStart_history (s : OrchState) :
    (handleWordDetectionStart s).history = s.history := by
  unfold handleWordDetectionStart
  split <;> rfl

@[simp]
lemma handleWordDetectionStart_spoken (s : OrchState) :
    (handleWordDetectionStart s).spoken = s.spoken := by
  unfold handleWordDetectionStart
  split <;> rfl

@[simp]
lemma handleFrameCapture_history (img : String) (s : OrchState) :
    (handleFrameCapture img s).history = s.history := by
  unfold handleFrameCapture
  split_ifs <;> simp

@[simp]
lemma handleFrameCapture_spoken (img : String) (s : OrchState) :
    (handleFrameCapture img s).spoken = s.spoken := by
  unfold handleFrameCapture
  split_ifs <;> simp

/-! The claims. -/
/-- Claim C2: a frame list of length at most 15 is dispatched unchanged by
`detectSignSentence`; a longer list of length `n` is downsampled to the
frames whose index is divisible by `ceil(n / 15)`, which yields at most 15
frames, is an order-preserving subsequence of the original list, and keeps
the first frame (index 0). -/
theorem detectSignSentence_downsampling (l : List String) :
    (l.length ≤ 15 → framesToProcess l = l) ∧
    (15 < l.length →
      framesToProcess l =
        (l.enum.filter (fun p => p.1 % ((l.length + 14) / 15) == 0)).map Prod.snd ∧
      (framesToProcess l).length ≤ 15 ∧
      List.Sublist (framesToProcess l) l ∧
      (framesToProcess l).head? = l.head?) := by
  constructor
  · intro hle
    unfold framesToProcess
    rw [if_neg (by omega)]
  · intro hgt
    refine ⟨?_, framesToProcess_length_le l hgt, framesToProcess_sublist l,
      framesToProcess_head l hgt⟩
    unfold framesToProcess
    rw [if_pos hgt]

theorem detectSignSentence_downsampling_witness :
    15 < sampleFrames.length ∧
    (framesToProcess sampleFrames =
      (sampleFrames.enum.filter
        (fun p => p.1 % ((sampleFrames.length + 14) / 15) == 0)).map Prod.snd ∧
     (framesToProcess sampleFrames).length ≤ 15 ∧
     List.Sublist (framesToProcess sampleFrames) sampleFrames ∧
     (framesToProcess sampleFrames).head? = sampleFrames.head?) :=
  ⟨by decide, (detectSignSentence_downsampling sampleFrames).2 (by decide)⟩

/-- Claim C10: both inference wrappers are total functions of their inputs
(immediate from their Lean types — no exception escapes), and on every
failing step (request error, missing/empty response text, JSON parse error)
they return their fixed fallback, which has `isSign` false, empty
`translation` and `confidence` 0. -/
theorem detect_wrappers_total (base64Image : String) (imgs : List String)
    (language : SignLanguage)
    (envW : String → SignLanguage → AIOutcome)
    (envS : List String → SignLanguage → AIOutcome)
    (parse : String → Option SignDetectionResult) :
    (wordErrorResult.isSign = false ∧ wordErrorResult.translation = "" ∧
      wordErrorResult.confidence = 0 ∧ sentenceErrorResult.isSign = false ∧
      sentenceErrorResult.translation = "" ∧ sentenceErrorResult.confidence = 0) ∧
    (failedOutcome parse (envW (cleanBase64 base64Image) language) →
      detectSignLanguage base64Image language envW parse = wordErrorResult) ∧
    (failedOutcome parse (envS ((framesToProcess imgs).map cleanBase64) language) →
      detectSignSentence imgs language envS parse = sentenceErrorResult) := by
  refine ⟨⟨rfl, rfl, rfl, rfl, rfl, rfl⟩, ?_, ?_⟩
  · intro hfail
    unfold detectSignLanguage
    rcases ho : envW (cleanBase64 base64Image) language with _ | t
    · rfl
    · rcases t with _ | t
      · rfl
      · rw [ho] at hfail
        by_cases ht : t = ""
        · subst ht
          rfl
        · rcases hfail with ht' | hp
          · exact absurd ht' ht
          · show (if t = "" then wordErrorResult
                  else
                    match parse (cleanJson t) with
                    | none => wordErrorResult
                    | some r => r) = wordErrorResult
            rw [if_neg ht, hp]
  · intro hfail
    unfold detectSignSentence
    rcases ho : envS ((framesToProcess imgs).map cleanBase64) language with _ | t
    · rfl
    · rcases t with _ | t
      · rfl
      · rw [ho] at hfail
        by_cases ht : t = ""
        · subst ht
          rfl
        · rcases hfail with ht' | hp
          · exact absurd ht' ht
          · show (if t = "" then sentenceErrorResult
                  else
                    match parse (cleanJson t) with
                    | none => sentenceErrorResult
                    | some r => r) = sentenceErrorResult
            rw [if_neg ht, hp]

theorem detect_wrappers_total_witness :
    failedOutcome (fun _ => none) AIOutcome.requestError ∧
    detectSignLanguage "img" .ASL (fun _ _ => .requestError) (fun _ => none) = wordErrorResult ∧
    detectSignSentence ["img"] .ASL (fun _ _ => .requestError) (fun _ => none) =
      sentenceErrorResult :=
  ⟨trivial,
   (detect_wrappers_total "img" ["img"] .ASL (fun _ _ => .requestError)
     (fun _ _ => .requestError) (fun _ => none)).2.1 trivial,
   (detect_wrappers_total "img" ["img"] .ASL (fun _ _ => .requestError)
     (fun _ _ => .requestError) (fun _ => none)).2.2 trivial⟩

/-- Claim C1: the in-flight guard serialises word-mode inference.  If
`processingRef` is set when a frame arrives in word mode, `handleWordDetection`
returns at once: the state (including the call counters) is unchanged and no
inference call is issued.  Consequently along every event sequence the number
of outstanding `detectSignLanguage` calls is at most one. -/
theorem word_single_flight :
    (∀ (s : OrchState) (img : String),
      s.detectionMode = .WORD → s.processing = true → handleFrameCapture img s = s) ∧
    (∀ es : List Event, (run es).wordInFlight ≤ 1) := by
  constructor
  · intro s img hm hp
    simp [handleFrameCapture, handleWordDetectionStart, hm, hp]
  · intro es
    have h5 := (inv_run es).2.2.2.2.1
    rw [h5]
    split <;> omega

theorem word_single_flight_witness :
    wordBusyState.detectionMode = .WORD ∧ wordBusyState.processing = true ∧
    handleFrameCapture "frame" wordBusyState = wordBusyState ∧
    (run []).wordInFlight ≤ 1 :=
  ⟨rfl, rfl, word_single_flight.1 wordBusyState "frame" rfl rfl,
   word_single_flight.2 []⟩

/-- Claim C9: switching the detection mode is a no-op while `RECORDING` (the
mode buttons are both guarded and disabled), and after any mode switch
performed in a reachable `SCANNING` or `IDLE` state the frame buffer is empty
and the in-flight guard is clear.  (`setDetectionMode` itself touches neither
the buffer nor the guard; the reset holds because every reachable
`SCANNING`/`IDLE` state already has an empty buffer and a clear guard, and
the switch preserves that.) -/
theorem mode_switch_guard :
    (∀ (s : OrchState) (m : DetectionMode),
      s.appState = .RECORDING → step (.switchMode m) s = s) ∧
    (∀ (es : List Event) (m : DetectionMode),
      ((run es).appState = .SCANNING ∨ (run es).appState = .IDLE) →
        (step (.switchMode m) (run es)).framesBuffer = [] ∧
        (step (.switchMode m) (run es)).processing = false) := by
  constructor
  · intro s m hr
    simp [step, hr]
  · intro es m hor
    have hb := (inv_run es).2.2.2.1 hor
    have hnr : ¬(run es).appState = .RECORDING := by
      rcases hor with hx | hx <;> simp [hx]
    simp only [step]
    rw [if_neg hnr]
    exact ⟨hb.1, hb.2⟩

theorem mode_switch_guard_witness :
    recordingState.appState = .RECORDING ∧
    step (.switchMode .WORD) recordingState = recordingState ∧
    ((run []).appState = .SCANNING ∨ (run []).appState = .IDLE) ∧
    (step (.switchMode .SENTENCE) (run [])).framesBuffer = [] ∧
    (step (.switchMode .SENTENCE) (run [])).processing = false :=
  ⟨rfl, mode_switch_guard.1 recordingState .WORD rfl, Or.inr rfl,
   (mode_switch_guard.2 [] .SENTENCE (Or.inr rfl)).1,
   (mode_switch_guard.2 [] .SENTENCE (Or.inr rfl)).2⟩

/-- Claim C3, counterexample: on the reachable trace above the sentence path
creates a `HistoryItem` whose text is the empty string, so a history entry
CAN be created from a result whose translation is empty (and a fortiori the
whitespace-only exclusion fails as well): the claim as stated is false. -/
theorem history_empty_translation_cex :
    (run emptyTranslationTrace).history =
      [{ id := "5", text := "", timestamp := 5, mode := .SENTENCE }] := by
  decide

/-- Claim C3 (amended): no `HistoryItem` is ever created from a result whose
`isSign` flag is false; the word path additionally never creates one from a
result whose translation is the empty string.  (The sentence path performs no
translation check at all, and neither path excludes whitespace-only
translations — that is what the counterexample forces out of the original
claim.) -/
theorem history_entry_provenance (s : OrchState) (e : Event) (item : HistoryItem)
    (hmem : item ∈ (step e s).history) :
    item ∈ s.history ∨
    ∃ (result : SignDetectionResult) (now : Nat),
      result.isSign = true ∧ item.text = result.translation ∧
      ((e = Event.wordDone result now ∧ result.translation ≠ "" ∧ item.mode = .WORD) ∨
       (e = Event.sentenceDone result now ∧ item.mode = .SENTENCE)) := by
  cases e with
  | tick img =>
    left
    simp only [step] at hmem
    split at hmem
    · rwa [handleFrameCapture_history] at hmem
    · exact hmem
  | wordDone result now =>
    simp only [step] at hmem
    split at hmem
    · rw [handleWordDetectionFinish_history] at hmem
      split at hmem
      · rename_i hc
        unfold wordDedupStep at hmem
        split at hmem
        · simp only [List.mem_append, List.mem_singleton] at hmem
          rcases hmem with hmem | hmem
          · exact Or.inl hmem
          · subst hmem
            exact Or.inr ⟨result, now, hc.1, rfl, Or.inl ⟨rfl, hc.2, rfl⟩⟩
        · rename_i lastItem hL
          by_cases hcmp : lastItem.text.toLower ≠ result.translation.toLower
          · rw [if_pos hcmp] at hmem
            simp only [List.mem_append, List.mem_singleton] at hmem
            rcases hmem with hmem | hmem
            · exact Or.inl hmem
            · subst hmem
              exact Or.inr ⟨result, now, hc.1, rfl, Or.inl ⟨rfl, hc.2, rfl⟩⟩
          · rw [if_neg hcmp] at hmem
            exact Or.inl hmem
      · exact Or.inl hmem
    · exact Or.inl hmem
  | sentenceDone result now =>
    simp only [step] at hmem
    split at hmem
    · rw [finishSentence_history] at hmem
      split at hmem
      · rename_i hc
        simp only [List.mem_append, List.mem_singleton] at hmem
        rcases hmem with hmem | hmem
        · exact Or.inl hmem
        · subst hmem
          exact Or.inr ⟨result, now, hc, rfl, Or.inr ⟨rfl, rfl⟩⟩
      · exact Or.inl hmem
    · exact Or.inl hmem
  | toggleRec =>
    left
    simp only [step] at hmem
    split_ifs at hmem
    · unfold toggleRecordingStop at hmem
      split_ifs at hmem <;> exact hmem
    · exact hmem
    · exact hmem
    · exact hmem
  | switchMode m =>
    left
    simp only [step] at hmem
    split at hmem <;> exact hmem

theorem history_entry_provenance_witness :
    ({ id := "9", text := "hello", timestamp := 9, mode := .SENTENCE } : HistoryItem) ∈
      (step (.sentenceDone { isSign := true, translation := "hello", confidence := 1 } 9)
        sentenceBusyState).history ∧
    (({ id := "9", text := "hello", timestamp := 9, mode := .SENTENCE } : HistoryItem) ∈
        sentenceBusyState.history ∨
      ∃ (result : SignDetectionResult) (now : Nat),
        result.isSign = true ∧
        ({ id := "9", text := "hello", timestamp := 9, mode := .SENTENCE } :
            HistoryItem).text = result.translation ∧
        ((Event.sentenceDone { isSign := true, translation := "hello", confidence := 1 } 9 =
              Event.wordDone result now ∧ result.translation ≠ "" ∧
            ({ id := "9", text := "hello", timestamp := 9, mode := .SENTENCE } :
              HistoryItem).mode = .WORD) ∨
         (Event.sentenceDone { isSign := true, translation := "hello", confidence := 1 } 9 =
              Event.sentenceDone result now ∧
            ({ id := "9", text := "hello", timestamp := 9, mode := .SENTENCE } :
              HistoryItem).mode = .SENTENCE))) :=
  ⟨by decide, history_entry_provenance sentenceBusyState
    (.sentenceDone { isSign := true, translation := "hello", confidence := 1 } 9)
    { id := "9", text := "hello", timestamp := 9, mode := .SENTENCE } (by decide)⟩

lemma wordDedupStep_none (result : SignDetectionResult) (now : Nat)
    (prev : List HistoryItem) (h : prev.getLast? = none) :
    wordDedupStep result now prev = (prev ++ [wordEntry result now], true) := by
  unfold wordDedupStep
  rw [h]
  rfl

lemma wordDedupStep_diff (result : SignDetectionResult) (now : Nat)
    (prev : List HistoryItem) (lastItem : HistoryItem)
    (h : prev.getLast? = some lastItem)
    (hd : lastItem.text.toLower ≠ result.translation.toLower) :
    wordDedupStep result now prev = (prev ++ [wordEntry result now], true) := by
  unfold wordDedupStep
  rw [h]
  show (if lastItem.text.toLower ≠ result.translation.toLower then
          (prev ++ [wordEntry result now], true) else (prev, false)) =
       (prev ++ [wordEntry result now], true)
  rw [if_pos hd]

lemma wordDedupStep_same (result : SignDetectionResult) (now : Nat)
    (prev : List HistoryItem) (lastItem : HistoryItem)
    (h : prev.getLast? = some lastItem)
    (hs : lastItem.text.toLower = result.translation.toLower) :
    wordDedupStep result now prev = (prev, false) := by
  unfold wordDedupStep
  rw [h]
  show (if lastItem.text.toLower ≠ result.translation.toLower then
          (prev ++ [wordEntry result now], true) else (prev, false)) = (prev, false)
  rw [if_neg (by simp [hs])]

/-- Claim C4: word-mode deduplication.  For a positive word-mode result, a
new entry is appended and `speak` fires exactly when the history is empty or
the last appended entry's text differs case-insensitively from the new
translation; and after such an append, a second word-mode cycle whose result
has case-insensitively the same translation appends nothing and speaks
nothing. -/
theorem word_dedup (s : OrchState) (result : SignDetectionResult) (now : Nat)
    (hp : s.processing = true) (hi : result.isSign = true)
    (ht : result.translation ≠ "") :
    ((s.history.getLast? = none ∨
      (∃ lastItem, s.history.getLast? = some lastItem ∧
        lastItem.text.toLower ≠ result.translation.toLower)) →
      (step (.wordDone result now) s).history = s.history ++ [wordEntry result now] ∧
      (step (.wordDone result now) s).spoken = s.spoken ++ [result.translation]) ∧
    (∀ lastItem, s.history.getLast? = some lastItem →
      lastItem.text.toLower = result.translation.toLower →
      (step (.wordDone result now) s).history = s.history ∧
      (step (.wordDone result now) s).spoken = s.spoken) ∧
    (∀ (result2 : SignDetectionResult) (now2 : Nat) (img : String),
      s.detectionMode = .WORD →
      result2.isSign = true → result2.translation ≠ "" →
      result2.translation.toLower = result.translation.toLower →
      (s.history.getLast? = none ∨
        (∃ lastItem, s.history.getLast? = some lastItem ∧
          lastItem.text.toLower ≠ result.translation.toLower)) →
      (step (.wordDone result2 now2)
          (step (.tick img) (step (.wordDone result now) s))).history =
        (step (.wordDone result now) s).history ∧
      (step (.wordDone result2 now2)
          (step (.tick img) (step (.wordDone result now) s))).spoken =
        (step (.wordDone result now) s).spoken) := by
  have hc : result.isSign = true ∧ result.translation ≠ "" := ⟨hi, ht⟩
  have hacc : (s.history.getLast? = none ∨
      (∃ lastItem, s.history.getLast? = some lastItem ∧
        lastItem.text.toLower ≠ result.translation.toLower)) →
      (step (.wordDone result now) s).history = s.history ++ [wordEntry result now] ∧
      (step (.wordDone result now) s).spoken = s.spoken ++ [result.translation] := by
    intro hdiff
    simp only [step]
    rw [if_pos hp]
    rw [handleWordDetectionFinish_history, handleWordDetectionFinish_spoken,
      if_pos hc, if_pos hc]
    rcases hdiff with hnone | ⟨lastItem, hL, hd⟩
    · rw [wordDedupStep_none result now s.history hnone]
      exact ⟨rfl, rfl⟩
    · rw [wordDedupStep_diff result now s.history lastItem hL hd]
      exact ⟨rfl, rfl⟩
  refine ⟨hacc, ?_, ?_⟩
  · intro lastItem hL hsame
    simp only [step]
    rw [if_pos hp]
    rw [handleWordDetectionFinish_history, handleWordDetectionFinish_spoken,
      if_pos hc, if_pos hc]
    rw [wordDedupStep_same result now s.history lastItem hL hsame]
    exact ⟨rfl, rfl⟩
  · intro result2 now2 img hm hi2 ht2 hsame hdiff
    obtain ⟨hh1, hsp1⟩ := hacc hdiff
    have hc2 : result2.isSign = true ∧ result2.translation ≠ "" := ⟨hi2, ht2⟩
    set s1 := step (.wordDone result now) s with hs1def
    have hm1 : s1.detectionMode = .WORD := by
      rw [hs1def]
      simp only [step]
      rw [if_pos hp, handleWordDetectionFinish_detectionMode]
      exact hm
    have hst1 : s1.appState = .SCANNING := by
      rw [hs1def]
      simp only [step]
      rw [if_pos hp, handleWordDetectionFinish_appState]
    have hpr1 : s1.processing = false := by
      rw [hs1def]
      simp only [step]
      rw [if_pos hp, handleWordDetectionFinish_processing]
    have htick : step (.tick img) s1 = handleWordDetectionStart s1 := by
      simp only [step]
      rw [if_pos (Or.inl ⟨hm1, by rw [hst1]; simp⟩), handleFrameCapture, if_pos hm1]
    set s2 := step (.tick img) s1 with hs2def
    have h2hist : s2.history = s1.history := by
      rw [htick, handleWordDetectionStart_history]
    have h2spoken : s2.spoken = s1.spoken := by
      rw [htick, handleWordDetectionStart_spoken]
    have h2proc : s2.processing = true := by
      rw [htick]
      unfold handleWordDetectionStart
      rw [if_neg (by simp [hpr1])]
    have hlast : s2.history.getLast? = some (wordEntry result now) := by
      rw [h2hist, hh1]
      exact List.getLast?_concat s.history
    simp only [step]
    rw [if_pos h2proc]
    rw [handleWordDetectionFinish_history, handleWordDetectionFinish_spoken,
      if_pos hc2, if_pos hc2]
    rw [wordDedupStep_same result2 now2 s2.history (wordEntry result now) hlast
      (by show result.translation.toLower = result2.translation.toLower
          exact hsame.symm)]
    exact ⟨h2hist, h2spoken⟩

theorem word_dedup_witness :
    wordBusyState.processing = true ∧
    ((step (.wordDone { isSign := true, translation := "Hello", confidence := 1 } 3)
        wordBusyState).history =
      wordBusyState.history ++
        [wordEntry { isSign := true, translation := "Hello", confidence := 1 } 3] ∧
     (step (.wordDone { isSign := true, translation := "Hello", confidence := 1 } 3)
        wordBusyState).spoken = wordBusyState.spoken ++ ["Hello"]) ∧
    ((step (.wordDone { isSign := true, translation := "hello", confidence := 1 } 4)
        dupWordState).history = dupWordState.history ∧
     (step (.wordDone { isSign := true, translation := "hello", confidence := 1 } 4)
        dupWordState).spoken = dupWordState.spoken) :=
  ⟨rfl,
   (word_dedup wordBusyState { isSign := true, translation := "Hello", confidence := 1 } 3
     rfl rfl (by decide)).1 (Or.inl rfl),
   (word_dedup dupWordState { isSign := true, translation := "hello", confidence := 1 } 4
     rfl rfl (by decide)).2.1
     { id := "1", text := "hello", timestamp := 1, mode := .WORD } rfl rfl⟩

/-- Claim C5: after every stop-recording cycle — the `toggleRecording` stop
branch followed by the resolution of the sentence call it dispatched (a
no-op resolution when no call was dispatched) — the frame buffer is empty,
the frame counter is 0 and the state is `IDLE`, for every result (success,
failure fallback, or skipped call). -/
theorem stop_cycle_resets (s : OrchState) (result : SignDetectionResult) (now : Nat)
    (hm : s.detectionMode = .SENTENCE) (hr : s.appState = .RECORDING) :
    (step (.sentenceDone result now) (step .toggleRec s)).framesBuffer = [] ∧
    (step (.sentenceDone result now) (step .toggleRec s)).frameCount = 0 ∧
    (step (.sentenceDone result now) (step .toggleRec s)).appState = .IDLE := by
  simp only [step]
  rw [if_pos hm, if_pos hr]
  unfold toggleRecordingStop
  by_cases hlen : s.framesBuffer.length > 0
  · rw [if_pos hlen, if_pos rfl]
    exact ⟨finishSentence_framesBuffer result now _, finishSentence_frameCount result now _,
      finishSentence_appState result now _⟩
  · rw [if_neg hlen]
    by_cases hsf : s.sentenceInFlight = true
    · rw [if_pos hsf]
      exact ⟨finishSentence_framesBuffer result now _, finishSentence_frameCount result now _,
        finishSentence_appState result now _⟩
    · rw [if_neg hsf]
      exact ⟨rfl, rfl, rfl⟩

theorem stop_cycle_resets_witness :
    recordingState.detectionMode = .SENTENCE ∧ recordingState.appState = .RECORDING ∧
    (step (.sentenceDone sentenceErrorResult 7) (step .toggleRec recordingState)).framesBuffer
        = [] ∧
    (step (.sentenceDone sentenceErrorResult 7) (step .toggleRec recordingState)).frameCount
        = 0 ∧
    (step (.sentenceDone sentenceErrorResult 7) (step .toggleRec recordingState)).appState
        = .IDLE :=
  ⟨rfl, rfl,
   (stop_cycle_resets recordingState sentenceErrorResult 7 rfl rfl).1,
   (stop_cycle_resets recordingState sentenceErrorResult 7 rfl rfl).2.1,
   (stop_cycle_resets recordingState sentenceErrorResult 7 rfl rfl).2.2⟩

/-- Claim C6: a transient inference failure (both wrappers resolve with their
`isSign = false` fallback instead of throwing) appends no history entry,
speaks nothing, and returns the state to `SCANNING` after a word-mode call
and to `IDLE` after a sentence-mode call; it is surfaced only through the
current-prediction value ("No clear sign detected" description update in
word mode, the "Could not understand sentence" sentinel in sentence mode). -/
theorem inference_failure_recovery (s : OrchState) (result : SignDetectionResult)
    (now : Nat) (hfail : result.isSign = false) :
    (s.processing = true →
      (step (.wordDone result now) s).appState = .SCANNING ∧
      (step (.wordDone result now) s).history = s.history ∧
      (step (.wordDone result now) s).spoken = s.spoken ∧
      (step (.wordDone result now) s).currentPrediction =
        (s.currentPrediction.map
          (fun p => { p with description := some "No clear sign detected" }))) ∧
    (s.sentenceInFlight = true →
      (step (.sentenceDone result now) s).appState = .IDLE ∧
      (step (.sentenceDone result now) s).history = s.history ∧
      (step (.sentenceDone result now) s).spoken = s.spoken ∧
      (step (.sentenceDone result now) s).currentPrediction =
        (some { isSign := false, translation := "Could not understand sentence",
                confidence := 0 })) := by
  constructor
  · intro hp
    simp only [step]
    rw [if_pos hp]
    refine ⟨handleWordDetectionFinish_appState result now s, ?_, ?_, ?_⟩
    · rw [handleWordDetectionFinish_history, if_neg (by simp [hfail])]
    · rw [handleWordDetectionFinish_spoken, if_neg (by simp [hfail])]
    · rw [handleWordDetectionFinish_currentPrediction, if_neg (by simp [hfail])]
  · intro hsf
    simp only [step]
    rw [if_pos hsf]
    refine ⟨finishSentence_appState result now s, ?_, ?_, ?_⟩
    · rw [finishSentence_history, if_neg (by simp [hfail])]
    · rw [finishSentence_spoken, if_neg (by simp [hfail])]
    · rw [finishSentence_currentPrediction, if_neg (by simp [hfail])]

theorem inference_failure_recovery_witness :
    wordErrorResult.isSign = false ∧ wordBusyState.processing = true ∧
    sentenceBusyState.sentenceInFlight = true ∧
    ((step (.wordDone wordErrorResult 11) wordBusyState).appState = .SCANNING ∧
     (step (.wordDone wordErrorResult 11) wordBusyState).history = wordBusyState.history ∧
     (step (.wordDone wordErrorResult 11) wordBusyState).spoken = wordBusyState.spoken ∧
     (step (.wordDone wordErrorResult 11) wordBusyState).currentPrediction =
       (wordBusyState.currentPrediction.map
         (fun p => { p with description := some "No clear sign detected" }))) ∧
    ((step (.sentenceDone sentenceErrorResult 12) sentenceBusyState).appState = .IDLE ∧
     (step (.sentenceDone sentenceErrorResult 12) sentenceBusyState).history =
       sentenceBusyState.history ∧
     (step (.sentenceDone sentenceErrorResult 12) sentenceBusyState).spoken =
       sentenceBusyState.spoken ∧
     (step (.sentenceDone sentenceErrorResult 12) sentenceBusyState).currentPrediction =
       (some { isSign := false, translation := "Could not understand sentence",
               confidence := 0 })) :=
  ⟨rfl, rfl, rfl,
   (inference_failure_recovery wordBusyState wordErrorResult 11 rfl).1 rfl,
   (inference_failure_recovery sentenceBusyState sentenceErrorResult 12 rfl).2 rfl⟩

/-- Claim C7: stopping a recording with an empty frame buffer issues no
inference call (neither call counter moves) and the committed session state
goes straight from `RECORDING` to `IDLE`: the whole stop branch is one
synchronous segment (no `await` is reached), so the transient
`setAppState(PROCESSING)` is batched away and `PROCESSING` is never the
committed state. -/
theorem empty_buffer_stop (s : OrchState)
    (hm : s.detectionMode = .SENTENCE) (hr : s.appState = .RECORDING)
    (hb : s.framesBuffer = []) :
    step .toggleRec s =
      { s with framesBuffer := [], frameCount := 0, appState := .IDLE } ∧
    (step .toggleRec s).sentenceCallCount = s.sentenceCallCount ∧
    (step .toggleRec s).wordCallCount = s.wordCallCount ∧
    (step .toggleRec s).sentenceInFlight = s.sentenceInFlight ∧
    (step .toggleRec s).appState = .IDLE := by
  have hmain : step .toggleRec s =
      { s with framesBuffer := [], frameCount := 0, appState := .IDLE } := by
    simp only [step]
    rw [if_pos hm, if_pos hr]
    unfold toggleRecordingStop
    rw [if_neg (by simp [hb])]
  exact ⟨hmain, by rw [hmain], by rw [hmain], by rw [hmain], by rw [hmain]⟩

theorem empty_buffer_stop_witness :
    stopReadyState.framesBuffer = [] ∧
    step .toggleRec stopReadyState =
      { stopReadyState with framesBuffer := [], frameCount := 0, appState := .IDLE } ∧
    (step .toggleRec stopReadyState).sentenceCallCount = stopReadyState.sentenceCallCount ∧
    (step .toggleRec stopReadyState).appState = .IDLE :=
  ⟨rfl, (empty_buffer_stop stopReadyState rfl rfl rfl).1,
   (empty_buffer_stop stopReadyState rfl rfl rfl).2.1,
   (empty_buffer_stop stopReadyState rfl rfl rfl).2.2.2.2⟩

/-- Claim C8: sentence-mode results bypass deduplication.  For every state
with a sentence call outstanding — including any state whose most recent
history entry carries case-insensitively identical text — a positive result
appends a new `SENTENCE` entry and speaks, unconditionally. -/
theorem sentence_no_dedup (s : OrchState) (result : SignDetectionResult) (now : Nat)
    (hsf : s.sentenceInFlight = true) (hi : result.isSign = true) :
    (step (.sentenceDone result now) s).history =
      s.history ++ [{ id := toString now, text := result.translation,
                      timestamp := now, mode := .SENTENCE }] ∧
    (step (.sentenceDone result now) s).spoken = s.spoken ++ [result.translation] := by
  simp only [step]
  rw [if_pos hsf]
  rw [finishSentence_history, finishSentence_spoken, if_pos hi, if_pos hi]
  exact ⟨rfl, rfl⟩

theorem sentence_no_dedup_witness :
    dupSentenceState.sentenceInFlight = true ∧
    (step (.sentenceDone { isSign := true, translation := "hello", confidence := 1 } 8)
        dupSentenceState).history =
      dupSentenceState.history ++
        [{ id := toString 8, text := "hello", timestamp := 8, mode := .SENTENCE }] ∧
    (step (.sentenceDone { isSign := true, translation := "hello", confidence := 1 } 8)
        dupSentenceState).spoken = dupSentenceState.spoken ++ ["hello"] :=
  ⟨rfl,
   (sentence_no_dedup dupSentenceState
     { isSign := true, translation := "hello", confidence := 1 } 8 rfl rfl).1,
   (sentence_no_dedup dupSentenceState
     { isSign := true, translation := "hello", confidence := 1 } 8 rfl rfl).2⟩
